import Mathlib

/-!
Shallow embedding of `Final_Project/env_limits.h` and `Final_Project/pins.h`
from the repository `Filkolev/First_Steps_in_Arduino`.  Both source files
consist entirely of C preprocessor constant definitions; each is embedded as a
Lean constant with the source's name and value, plus a directive-level model of
the files themselves.
-/

namespace FirstSteps

/-- An Arduino pin identifier as written in `pins.h`: either a bare digital pin
number such as `7`, or one of the analog pin identifiers `A0`..`A3`. -/
inductive Pin where
  | d : Nat → Pin
  | a : Nat → Pin
deriving DecidableEq, Repr

/-- The Arduino analog pin identifier `A0`. -/
def A0 : Pin := .a 0

/-- The Arduino analog pin identifier `A1`. -/
def A1 : Pin := .a 1

/-- The Arduino analog pin identifier `A2`. -/
def A2 : Pin := .a 2

/-- The Arduino analog pin identifier `A3`. -/
def A3 : Pin := .a 3

-- Constants of `env_limits.h`, in source order.

-- Serial communication
def BAUD_RATE : Nat := 9600

-- Motor off signal frequency (31 - 65535)
def MOTOR_OFF_FREQUENCY : Nat := 50000

-- Random inflow max value
def RANDOM_INFLOW_MAX : Nat := 1000

-- Analog and digital read/write value limits
def MIN_ANALOG_READ : Nat := 0
def MAX_ANALOG_READ : Nat := 1023
def MIN_ANALOG_WRITE : Nat := 0
def MAX_ANALOG_WRITE : Nat := 255

-- Motor speed definitions
def ZERO_SPEED : Nat := 0
def QUARTER_SPEED : Nat := 64
def HALF_SPEED : Nat := 128
def THREE_QUARTERS_SPEED : Nat := 191
def FULL_SPEED : Nat := 255

-- Motor controller levels to modify speed
def QUARTER_SPEED_CTRL_MAX : Nat := 256
def HALF_SPEED_CTRL_MAX : Nat := 512
def THREE_QUARTERS_SPEED_CTRL_MAX : Nat := 767

-- Pool status
def POOL_EMPTY : Nat := 0
def POOL_LOW_LOWER : Nat := 500000
def POOL_LOW_HIGHER : Nat := 1200000
def POOL_HIGH_LOWER : Nat := 2500000
def POOL_CRITICAL_LOWER : Nat := 3500000
def POOL_FULL_LOWER : Nat := 4000000
def POOL_FULL : Nat := 5000000
def INFLOW_ABS_MAX : Nat := 150000

-- Timeouts
def DEBOUNCE_INTERVAL : Nat := 50
def LOG_INFO_INTERVAL : Nat := 3000
def RANDOM_INFLOW_INTERVAL : Nat := 1000
def LOW_ENERGY_TIMEOUT : Nat := 1000
def OK_ENERGY_TIMEOUT : Nat := 1000
def HIGH_ENERGY_TIMEOUT : Nat := 500
def CRITICAL_ENERGY_TIMEOUT : Nat := 250
def LOW_POWER_MODE_LOG_TIMEOUT : Nat := 50
def STABILITY_TIMEOUT : Nat := 25

-- Constants of `pins.h`, in source order.

-- Pool energy level LEDs
def LOW_ENERGY_LED : Pin := .d 7
def OK_ENERGY_LED : Pin := .d 13
def HIGH_ENERGY_LED : Pin := .d 8
def CRITICAL_ENERGY_LED : Pin := .d 12

-- Net energy inflow LEDs
def NET_GAIN_LED : Pin := .d 6
def NET_LOSS_LED : Pin := .d 5

-- Release valve pin
def RELEASE_VALVE : Pin := A1

-- Motor control push-buttons
def ON_BUTTON : Pin := .d 3
def OFF_BUTTON : Pin := .d 4
def TOGGLE_BUTTON : Pin := A3

-- Motor speed and direction regulators
def MOTOR_REGULATOR : Pin := A2
def MOTOR_SPEED_PIN : Pin := .d 9
def MOTOR_1A_PIN : Pin := .d 10
def MOTOR_2A_PIN : Pin := .d 11

-- Energy source pin
def ENERGY_SOURCE : Pin := A0

-- Motor OFF sound signal
def MOTOR_OFF_SIGNAL : Pin := .d 2

/-- The value bound by a preprocessor define in these files: a plain numeric
constant or a pin identifier. -/
inductive DefValue where
  | num : Nat → DefValue
  | pin : Pin → DefValue
deriving DecidableEq, Repr

/-- A top-level item of a source file, at the granularity this repository
uses: either a compile-time constant definition (a line of the form
`define NAME value` of the C preprocessor), or any executable construct (a
function, statement, loop, state machine, or anything that mutates state or
has a lifecycle).  The two supplied files contain only the former. -/
inductive Directive where
  | define : String → DefValue → Directive
  | executable : String → Directive
deriving DecidableEq, Repr

/-- Whether a directive is a compile-time constant definition. -/
def Directive.isDefine : Directive → Bool
  | .define _ _ => true
  | .executable _ => false

/-- The file `Final_Project/env_limits.h`, directive by directive, in source
order. -/
def env_limits_file : List Directive :=
  [ .define "BAUD_RATE" (.num BAUD_RATE)
  , .define "MOTOR_OFF_FREQUENCY" (.num MOTOR_OFF_FREQUENCY)
  , .define "RANDOM_INFLOW_MAX" (.num RANDOM_INFLOW_MAX)
  , .define "MIN_ANALOG_READ" (.num MIN_ANALOG_READ)
  , .define "MAX_ANALOG_READ" (.num MAX_ANALOG_READ)
  , .define "MIN_ANALOG_WRITE" (.num MIN_ANALOG_WRITE)
  , .define "MAX_ANALOG_WRITE" (.num MAX_ANALOG_WRITE)
  , .define "ZERO_SPEED" (.num ZERO_SPEED)
  , .define "QUARTER_SPEED" (.num QUARTER_SPEED)
  , .define "HALF_SPEED" (.num HALF_SPEED)
  , .define "THREE_QUARTERS_SPEED" (.num THREE_QUARTERS_SPEED)
  , .define "FULL_SPEED" (.num FULL_SPEED)
  , .define "QUARTER_SPEED_CTRL_MAX" (.num QUARTER_SPEED_CTRL_MAX)
  , .define "HALF_SPEED_CTRL_MAX" (.num HALF_SPEED_CTRL_MAX)
  , .define "THREE_QUARTERS_SPEED_CTRL_MAX" (.num THREE_QUARTERS_SPEED_CTRL_MAX)
  , .define "POOL_EMPTY" (.num POOL_EMPTY)
  , .define "POOL_LOW_LOWER" (.num POOL_LOW_LOWER)
  , .define "POOL_LOW_HIGHER" (.num POOL_LOW_HIGHER)
  , .define "POOL_HIGH_LOWER" (.num POOL_HIGH_LOWER)
  , .define "POOL_CRITICAL_LOWER" (.num POOL_CRITICAL_LOWER)
  , .define "POOL_FULL_LOWER" (.num POOL_FULL_LOWER)
  , .define "POOL_FULL" (.num POOL_FULL)
  , .define "INFLOW_ABS_MAX" (.num INFLOW_ABS_MAX)
  , .define "DEBOUNCE_INTERVAL" (.num DEBOUNCE_INTERVAL)
  , .define "LOG_INFO_INTERVAL" (.num LOG_INFO_INTERVAL)
  , .define "RANDOM_INFLOW_INTERVAL" (.num RANDOM_INFLOW_INTERVAL)
  , .define "LOW_ENERGY_TIMEOUT" (.num LOW_ENERGY_TIMEOUT)
  , .define "OK_ENERGY_TIMEOUT" (.num OK_ENERGY_TIMEOUT)
  , .define "HIGH_ENERGY_TIMEOUT" (.num HIGH_ENERGY_TIMEOUT)
  , .define "CRITICAL_ENERGY_TIMEOUT" (.num CRITICAL_ENERGY_TIMEOUT)
  , .define "LOW_POWER_MODE_LOG_TIMEOUT" (.num LOW_POWER_MODE_LOG_TIMEOUT)
  , .define "STABILITY_TIMEOUT" (.num STABILITY_TIMEOUT) ]

/-- The file `Final_Project/pins.h`, directive by directive, in source
order. -/
def pins_file : List Directive :=
  [ .define "LOW_ENERGY_LED" (.pin LOW_ENERGY_LED)
  , .define "OK_ENERGY_LED" (.pin OK_ENERGY_LED)
  , .define "HIGH_ENERGY_LED" (.pin HIGH_ENERGY_LED)
  , .define "CRITICAL_ENERGY_LED" (.pin CRITICAL_ENERGY_LED)
  , .define "NET_GAIN_LED" (.pin NET_GAIN_LED)
  , .define "NET_LOSS_LED" (.pin NET_LOSS_LED)
  , .define "RELEASE_VALVE" (.pin RELEASE_VALVE)
  , .define "ON_BUTTON" (.pin ON_BUTTON)
  , .define "OFF_BUTTON" (.pin OFF_BUTTON)
  , .define "TOGGLE_BUTTON" (.pin TOGGLE_BUTTON)
  , .define "MOTOR_REGULATOR" (.pin MOTOR_REGULATOR)
  , .define "MOTOR_SPEED_PIN" (.pin MOTOR_SPEED_PIN)
  , .define "MOTOR_1A_PIN" (.pin MOTOR_1A_PIN)
  , .define "MOTOR_2A_PIN" (.pin MOTOR_2A_PIN)
  , .define "ENERGY_SOURCE" (.pin ENERGY_SOURCE)
  , .define "MOTOR_OFF_SIGNAL" (.pin MOTOR_OFF_SIGNAL) ]

/-- The sixteen pin constants of `pins.h`, in source order. -/
def pinAssignments : List Pin :=
  [ LOW_ENERGY_LED, OK_ENERGY_LED, HIGH_ENERGY_LED, CRITICAL_ENERGY_LED
  , NET_GAIN_LED, NET_LOSS_LED, RELEASE_VALVE, ON_BUTTON, OFF_BUTTON
  , TOGGLE_BUTTON, MOTOR_REGULATOR, MOTOR_SPEED_PIN, MOTOR_1A_PIN
  , MOTOR_2A_PIN, ENERGY_SOURCE, MOTOR_OFF_SIGNAL ]

/-- The seven pool-level threshold constants of `env_limits.h`, in increasing
source order. -/
def poolThresholdList : List Nat :=
  [ POOL_EMPTY, POOL_LOW_LOWER, POOL_LOW_HIGHER, POOL_HIGH_LOWER
  , POOL_CRITICAL_LOWER, POOL_FULL_LOWER, POOL_FULL ]

/-- The number of pool-level thresholds strictly above level `x` and not above
level `x + d`: the thresholds crossed upward when the pool level moves from
`x` to `x + d`. -/
def thresholdsCrossed (x d : Nat) : Nat :=
  (poolThresholdList.filter (fun t => decide (x < t ∧ t ≤ x + d))).length

/-- The pool-threshold table an `env_limits.h` variant defines: one value per
threshold name. -/
structure PoolThresholds where
  pool_empty : Nat
  pool_low_lower : Nat
  pool_low_higher : Nat
  pool_high_lower : Nat
  pool_critical_lower : Nat
  pool_full_lower : Nat
  pool_full : Nat
deriving DecidableEq, Repr

/-- The pool-threshold table of the `env_limits.h` under
`src/Final_Project/`. -/
def srcPoolThresholds : PoolThresholds :=
  ⟨ POOL_EMPTY, POOL_LOW_LOWER, POOL_LOW_HIGHER, POOL_HIGH_LOWER
  , POOL_CRITICAL_LOWER, POOL_FULL_LOWER, POOL_FULL ⟩

/-- The pool thresholds of a variant are strictly monotonically increasing in
the order the file lists them. -/
def PoolThresholds.monotone (p : PoolThresholds) : Prop :=
  p.pool_empty < p.pool_low_lower ∧ p.pool_low_lower < p.pool_low_higher ∧
  p.pool_low_higher < p.pool_high_lower ∧
  p.pool_high_lower < p.pool_critical_lower ∧
  p.pool_critical_lower < p.pool_full_lower ∧
  p.pool_full_lower < p.pool_full

instance (p : PoolThresholds) : Decidable p.monotone := by
  unfold PoolThresholds.monotone; infer_instance

/-- Modelled from the spec: the repository's second `env_limits.h` variant is
not under `src/`; the spec describes it only as defining pool thresholds "in
the ~hundred-thousands", monotonically increasing within the file.  A
threshold table is a hundred-thousands-scale variant when its thresholds are
monotonically increasing and its nonzero thresholds all lie in the
hundred-thousands (at least `100000` and below `1000000`). -/
def hundredThousandsVariant (p : PoolThresholds) : Prop :=
  p.monotone ∧ 100000 ≤ p.pool_low_lower ∧ p.pool_full < 1000000

instance (p : PoolThresholds) : Decidable (hundredThousandsVariant p) := by
  unfold hundredThousandsVariant; infer_instance

/-- C1: The pin assignment constants and serial baud rate defined in the
source equal, name for name and value for value, the wiring contract listed in
the spec: LOW_ENERGY_LED=7, OK_ENERGY_LED=13, HIGH_ENERGY_LED=8,
CRITICAL_ENERGY_LED=12, NET_GAIN_LED=6, NET_LOSS_LED=5, RELEASE_VALVE=A1,
ON_BUTTON=3, OFF_BUTTON=4, TOGGLE_BUTTON=A3, MOTOR_REGULATOR=A2,
MOTOR_SPEED_PIN=9, MOTOR_1A_PIN=10, MOTOR_2A_PIN=11, ENERGY_SOURCE=A0,
MOTOR_OFF_SIGNAL=2, and BAUD_RATE=9600. -/
theorem wiring_contract_matches_spec :
    LOW_ENERGY_LED = .d 7 ∧ OK_ENERGY_LED = .d 13 ∧ HIGH_ENERGY_LED = .d 8 ∧
    CRITICAL_ENERGY_LED = .d 12 ∧ NET_GAIN_LED = .d 6 ∧ NET_LOSS_LED = .d 5 ∧
    RELEASE_VALVE = A1 ∧ ON_BUTTON = .d 3 ∧ OFF_BUTTON = .d 4 ∧
    TOGGLE_BUTTON = A3 ∧ MOTOR_REGULATOR = A2 ∧ MOTOR_SPEED_PIN = .d 9 ∧
    MOTOR_1A_PIN = .d 10 ∧ MOTOR_2A_PIN = .d 11 ∧ ENERGY_SOURCE = A0 ∧
    MOTOR_OFF_SIGNAL = .d 2 ∧ BAUD_RATE = 9600 := by
  decide

/-- C2: The motor speed constants are strictly increasing:
ZERO_SPEED < QUARTER_SPEED < HALF_SPEED < THREE_QUARTERS_SPEED <
FULL_SPEED. -/
theorem motor_speeds_strictly_increasing :
    ZERO_SPEED < QUARTER_SPEED ∧ QUARTER_SPEED < HALF_SPEED ∧
    HALF_SPEED < THREE_QUARTERS_SPEED ∧ THREE_QUARTERS_SPEED < FULL_SPEED := by
  decide

/-- C3: Within the `env_limits.h` file under `src/`, the pool-level threshold
constants are strictly monotonically increasing: POOL_EMPTY < POOL_LOW_LOWER <
POOL_LOW_HIGHER < POOL_HIGH_LOWER < POOL_CRITICAL_LOWER < POOL_FULL_LOWER <
POOL_FULL. -/
theorem pool_thresholds_strictly_increasing : srcPoolThresholds.monotone := by
  decide

/-- C4: The repository supplies two conflicting versions of `env_limits.h`
that define contradictory pool-threshold scales: the one under `src/` has its
top thresholds in the millions, while any variant matching the spec's
description of the second file (thresholds in the ~hundred-thousands) assigns
POOL_FULL a strictly smaller, different value. -/
theorem pool_threshold_scales_conflict (p : PoolThresholds)
    (h : hundredThousandsVariant p) :
    1000000 ≤ srcPoolThresholds.pool_full ∧
    p.pool_full < srcPoolThresholds.pool_full ∧
    p.pool_full ≠ srcPoolThresholds.pool_full := by
  obtain ⟨-, -, hf⟩ := h
  refine ⟨by decide, ?_, ?_⟩ <;>
    simp only [srcPoolThresholds, POOL_FULL] at * <;> omega

/-- Witness for C4: a concrete hundred-thousands-scale threshold table, and
the conflict with the `src/` table at it. -/
theorem pool_threshold_scales_conflict_witness :
    hundredThousandsVariant ⟨0, 100000, 200000, 300000, 400000, 500000, 600000⟩ ∧
    (1000000 ≤ srcPoolThresholds.pool_full ∧
     (600000 : Nat) < srcPoolThresholds.pool_full ∧
     (600000 : Nat) ≠ srcPoolThresholds.pool_full) :=
  ⟨by decide,
   pool_threshold_scales_conflict
     ⟨0, 100000, 200000, 300000, 400000, 500000, 600000⟩ (by decide)⟩

/-- C5: The supplied source contains no executable logic, state machine,
control loop, or algorithm: every directive of both files is a compile-time
constant definition, and nothing in the source performs mutation or has a
lifecycle. -/
theorem source_is_only_constant_defines :
    (env_limits_file ++ pins_file).all Directive.isDefine = true := by
  decide

/-- C6: The analog I/O bound constants describe the hardware ADC/PWM ranges:
MIN_ANALOG_READ = 0 and MAX_ANALOG_READ = 1023 (the 10-bit ADC range),
MIN_ANALOG_WRITE = 0 and MAX_ANALOG_WRITE = 255 (the 8-bit PWM range), with
each minimum strictly below its maximum. -/
theorem analog_bounds_match_hardware_ranges :
    MIN_ANALOG_READ = 0 ∧ MAX_ANALOG_READ = 1023 ∧
    MAX_ANALOG_READ = 2 ^ 10 - 1 ∧
    MIN_ANALOG_WRITE = 0 ∧ MAX_ANALOG_WRITE = 255 ∧
    MAX_ANALOG_WRITE = 2 ^ 8 - 1 ∧
    MIN_ANALOG_READ < MAX_ANALOG_READ ∧
    MIN_ANALOG_WRITE < MAX_ANALOG_WRITE := by
  decide

/-- C7: Every constant in the Timeouts group (DEBOUNCE_INTERVAL,
LOG_INFO_INTERVAL, RANDOM_INFLOW_INTERVAL, LOW_ENERGY_TIMEOUT,
OK_ENERGY_TIMEOUT, HIGH_ENERGY_TIMEOUT, CRITICAL_ENERGY_TIMEOUT,
LOW_POWER_MODE_LOG_TIMEOUT, STABILITY_TIMEOUT) is a strictly positive integer
millisecond interval. -/
theorem timeouts_strictly_positive :
    0 < DEBOUNCE_INTERVAL ∧ 0 < LOG_INFO_INTERVAL ∧
    0 < RANDOM_INFLOW_INTERVAL ∧ 0 < LOW_ENERGY_TIMEOUT ∧
    0 < OK_ENERGY_TIMEOUT ∧ 0 < HIGH_ENERGY_TIMEOUT ∧
    0 < CRITICAL_ENERGY_TIMEOUT ∧ 0 < LOW_POWER_MODE_LOG_TIMEOUT ∧
    0 < STABILITY_TIMEOUT := by
  decide

/-- C8: For every pair of distinct pin constants defined in `pins.h`, the
assigned pin values are distinct: no two peripherals share a digital or
analog pin. -/
theorem pin_assignments_pairwise_distinct : pinAssignments.Nodup := by
  decide

/-- C9: Every motor speed constant lies within the analog write range, with
the endpoints coinciding exactly: ZERO_SPEED = MIN_ANALOG_WRITE and
FULL_SPEED = MAX_ANALOG_WRITE, and each speed level is between
MIN_ANALOG_WRITE and MAX_ANALOG_WRITE. -/
theorem motor_speeds_within_analog_write_range :
    ZERO_SPEED = MIN_ANALOG_WRITE ∧ FULL_SPEED = MAX_ANALOG_WRITE ∧
    ∀ s ∈ [ZERO_SPEED, QUARTER_SPEED, HALF_SPEED, THREE_QUARTERS_SPEED,
           FULL_SPEED],
      MIN_ANALOG_WRITE ≤ s ∧ s ≤ MAX_ANALOG_WRITE := by
  decide

set_option maxHeartbeats 800000 in
/-- C10: INFLOW_ABS_MAX is strictly smaller than the difference between every
pair of consecutive pool-level thresholds, so a level change bounded by
INFLOW_ABS_MAX crosses at most one threshold. -/
theorem inflow_bounded_by_threshold_gaps :
    (INFLOW_ABS_MAX < POOL_LOW_LOWER - POOL_EMPTY ∧
     INFLOW_ABS_MAX < POOL_LOW_HIGHER - POOL_LOW_LOWER ∧
     INFLOW_ABS_MAX < POOL_HIGH_LOWER - POOL_LOW_HIGHER ∧
     INFLOW_ABS_MAX < POOL_CRITICAL_LOWER - POOL_HIGH_LOWER ∧
     INFLOW_ABS_MAX < POOL_FULL_LOWER - POOL_CRITICAL_LOWER ∧
     INFLOW_ABS_MAX < POOL_FULL - POOL_FULL_LOWER) ∧
    ∀ x d : Nat, d ≤ INFLOW_ABS_MAX → thresholdsCrossed x d ≤ 1 := by
  refine ⟨by decide, fun x d hd => ?_⟩
  simp only [INFLOW_ABS_MAX] at hd
  simp only [thresholdsCrossed, poolThresholdList, POOL_EMPTY, POOL_LOW_LOWER,
    POOL_LOW_HIGHER, POOL_HIGH_LOWER, POOL_CRITICAL_LOWER, POOL_FULL_LOWER,
    POOL_FULL, List.filter_cons, List.filter_nil, decide_eq_true_eq]
  split_ifs <;> simp only [List.length_cons, List.length_nil] <;> omega

/-- Witness for C10: with the pool at level 450000, an inflow of the full
INFLOW_ABS_MAX crosses at most one threshold. -/
theorem inflow_bounded_by_threshold_gaps_witness :
    thresholdsCrossed 450000 150000 ≤ 1 :=
  inflow_bounded_by_threshold_gaps.2 450000 150000 (by decide)

end FirstSteps
